import Mathlib

/-!
Verification of the emoji batch downloader (src/main.py).

The program fetches a JSON manifest mapping emoji names to image URLs,
filters the entries, and downloads each image to `./output` with a
bounded thread pool, skipping files already on disk.

The embedding below translates the source functions into pure Lean
functions.  Effects are made explicit:
* the filesystem is a map `FS := String → Option String` from paths to
  file contents (a `String` stands for the byte string);
* the network (the `requests` library plus the remote hosts) is an
  oracle `Env` giving, for each URL, either a raised exception or a
  response with a status code and body; `raise_for_status` of the
  `requests` library raises exactly for status codes 400–599;
* log calls are recorded as a list of `LogEvent`s;
* a Python exception inside the `try` block of `download_emoji` is the
  `Option.none` value of the `ok` field of the trace produced by
  `downloadBodyTrace`; the surrounding `except Exception` handler is the
  wrapper `download_emoji`.
-/

/-- A Python value as it can occur in the parsed JSON manifest
(`response.json()` in `main`, src/main.py line 71): a string, a number,
`None`, or a boolean.  Manifest URLs are untrusted and may have any of
these shapes. -/
inductive PyVal where
  | str (s : String)
  | int (n : Int)
  | none
  | bool (b : Bool)
deriving DecidableEq, Repr

/-- Python truthiness of a `PyVal`, as tested by `if url and ...`
(src/main.py line 74): empty string, zero, `None` and `False` are falsy. -/
def pyTruthy : PyVal → Bool
  | PyVal.str s => !(s = "")
  | PyVal.int n => !(n = 0)
  | PyVal.none => false
  | PyVal.bool b => b

/-- Python `str.startswith`: the code points of `t` are a prefix of the
code points of `s`.  (Stated over the code-point lists, so that concrete
instances evaluate by kernel reduction.) -/
def pyStartsWith (s t : String) : Bool :=
  t.data.isPrefixOf s.data

/-- Python `str.endswith`, over the code-point lists. -/
def pyEndsWith (s t : String) : Bool :=
  t.data.isSuffixOf s.data

/-- `is_valid_url` (src/main.py lines 28-29): true iff the value is a
string that starts with `http://` or `https://`. -/
def is_valid_url : PyVal → Bool
  | PyVal.str s => pyStartsWith s "http://" || pyStartsWith s "https://"
  | _ => false

/-- CPython `str.isalnum` as a per-character test (used by the generator
on src/main.py line 36).  Exact on ASCII and on the Latin-1 supplement
(U+00AA, U+00B2, U+00B3, U+00B5, U+00B9, U+00BA, U+00BC-U+00BE,
U+00C0-U+00D6, U+00D8-U+00F6, U+00F8-U+00FF are alphanumeric there).
Code points above U+00FF are classified as non-alphanumeric: the full
Unicode table is not embedded.  This is faithful for every character
appearing in the concrete inputs of this development (in particular
emoji such as U+1F600 are non-alphanumeric in CPython as well). -/
def pyIsAlnum (c : Char) : Bool :=
  let n := c.toNat
  decide ((0x30 ≤ n ∧ n ≤ 0x39) ∨ (0x41 ≤ n ∧ n ≤ 0x5A) ∨ (0x61 ≤ n ∧ n ≤ 0x7A) ∨
    n = 0xAA ∨ n = 0xB2 ∨ n = 0xB3 ∨ n = 0xB5 ∨ n = 0xB9 ∨ n = 0xBA ∨
    (0xBC ≤ n ∧ n ≤ 0xBE) ∨ (0xC0 ≤ n ∧ n ≤ 0xD6) ∨ (0xD8 ≤ n ∧ n ≤ 0xF6) ∨
    (0xF8 ≤ n ∧ n ≤ 0xFF))

/-- The per-character filter of src/main.py line 36:
`c.isalnum() or c in ("-", "_")`. -/
def keepChar (c : Char) : Bool :=
  pyIsAlnum c || c = '-' || c = '_'

/-- The name sanitisation of src/main.py lines 36-38:
`"".join(c for c in name if c.isalnum() or c in ("-", "_"))`, falling
back to the literal `"emoji"` when the filtered string is empty. -/
def sanitiseName (name : String) : String :=
  if String.mk (name.data.filter keepChar) = "" then "emoji"
  else String.mk (name.data.filter keepChar)

/-- Index of the last occurrence of `t` in the list, if any. -/
def lastIdx : List Char → Char → Option Nat
  | [], _ => Option.none
  | c :: cs, t =>
    match lastIdx cs t with
    | Option.some i => Option.some (i + 1)
    | Option.none => if c = t then Option.some 0 else Option.none

/-- Python `str.rfind` restricted to a single character: the highest
index of `t` in `s`, or `-1` when `t` does not occur. -/
def pyRfind (s : String) (t : Char) : Int :=
  match lastIdx s.data t with
  | Option.some i => (i : Int)
  | Option.none => -1

/-- `os.path.splitext` on POSIX (CPython `genericpath._splitext` with
separator `/` and extension separator `.`), called on the *whole URL
string* at src/main.py line 40.  It finds the last `.` strictly after
the last `/`; if every character between them is a `.` (a dotfile-style
basename) there is no extension. -/
def pySplitext (p : String) : String × String :=
  if pyRfind p '.' > pyRfind p '/' then
    if (List.range' (pyRfind p '/' + 1).toNat
        ((pyRfind p '.').toNat - (pyRfind p '/' + 1).toNat)).any
        (fun i => !(p.data.getD i '.' = '.')) then
      (String.mk (p.data.take (pyRfind p '.').toNat),
       String.mk (p.data.drop (pyRfind p '.').toNat))
    else (p, "")
  else (p, "")

/-- The extension derivation of src/main.py line 40:
`os.path.splitext(url)[1] or ".png"` (an empty extension string is falsy,
so it defaults to `".png"`). -/
def extensionOf (url : String) : String :=
  if (pySplitext url).2 = "" then ".png" else (pySplitext url).2

/-- `OUTPUT_DIR` (src/main.py line 10). -/
def OUTPUT_DIR : String := "./output"

/-- `os.path.join` on POSIX for two arguments (CPython `posixpath.join`),
as called at src/main.py line 42. -/
def pathJoin (a b : String) : String :=
  if pyStartsWith b "/" then b
  else if a = "" ∨ pyEndsWith a "/" then a ++ b
  else a ++ "/" ++ b

/-- The file path `download_emoji` derives for a name and a (string) URL
(src/main.py lines 36-42). -/
def itemFilepath (name url : String) : String :=
  pathJoin OUTPUT_DIR (sanitiseName name ++ extensionOf url)

/-- The filesystem: a map from paths to file contents.  `os.path.exists`
is `Option.isSome`; the `open`/`write` of src/main.py lines 51-52 updates
the map at one path. -/
def FS : Type := String → Option String

/-- Outcome of one `requests.get(url, timeout=5)` call: either the
library raises (timeout, connection error, invalid scheme, ...) or it
returns a response with a status code and a body. -/
inductive GetResult where
  | raises (msg : String)
  | response (status : Nat) (body : String)

/-- The environment of one run: the behaviour of `requests.get` on each
URL, and whether opening/writing each path succeeds (an `OSError` from
`open`/`write` on src/main.py lines 51-52 is `writeOk = false`). -/
structure Env where
  get : String → GetResult
  writeOk : String → Bool

/-- The log lines `download_emoji` can emit (src/main.py lines 34, 45,
54, 57). -/
inductive LogEvent where
  | warnInvalidUrl (name : String)
  | infoSkipped (name : String)
  | infoDownloaded (name : String) (filepath : String)
  | errorFailed (name : String)
deriving DecidableEq, Repr

/-- Trace of one `download_emoji` call: `ok = Option.some b` is a normal
return of the boolean `b`; `ok = Option.none` is an exception escaping
the traced region.  `gets` lists the URLs passed to `requests.get`, in
order; `fs` is the filesystem afterwards; `log` the emitted log lines. -/
structure ItemTrace where
  ok : Option Bool
  fs : FS
  gets : List String
  log : List LogEvent

/-- The warning emitted at src/main.py lines 33-34: one `warning` log
line when the URL is not valid, and nothing else — control continues. -/
def warnLog (name : String) (url : PyVal) : List LogEvent :=
  if is_valid_url url then [] else [LogEvent.warnInvalidUrl name]

/-- The `try` block of `download_emoji` (src/main.py lines 33-55).
Line 33-34: warn (but nothing else) when the URL is not valid.
Lines 36-38: sanitise the name.  Line 40: `os.path.splitext(url)`
raises `TypeError` unless `url` is a string, so for every non-string
URL the block raises there, before any filesystem or network step.
Lines 44-46: if the path exists, return `True` with no network call.
Lines 48-49: `requests.get` (may raise), then `raise_for_status`
(raises exactly for status 400-599).  Lines 51-55: write the body and
return `True`; a write failure raises. -/
def downloadBodyTrace (name : String) (url : PyVal) (fs : FS) (env : Env) : ItemTrace :=
  match url with
  | PyVal.str u =>
    if (fs (itemFilepath name u)).isSome then
      { ok := Option.some true, fs := fs, gets := [],
        log := warnLog name url ++ [LogEvent.infoSkipped name] }
    else
      match env.get u with
      | GetResult.raises _ =>
        { ok := Option.none, fs := fs, gets := [u], log := warnLog name url }
      | GetResult.response status body =>
        if 400 ≤ status ∧ status ≤ 599 then
          { ok := Option.none, fs := fs, gets := [u], log := warnLog name url }
        else if env.writeOk (itemFilepath name u) then
          { ok := Option.some true,
            fs := fun p => if p = itemFilepath name u then Option.some body else fs p,
            gets := [u],
            log := warnLog name url ++ [LogEvent.infoDownloaded name (itemFilepath name u)] }
        else
          { ok := Option.none, fs := fs, gets := [u], log := warnLog name url }
  | _ => { ok := Option.none, fs := fs, gets := [], log := warnLog name url }

/-- `download_emoji` (src/main.py lines 31-58): the `try` block wrapped
in the `except Exception` handler, which logs an error and returns
`False`; so the call always returns a boolean. -/
def download_emoji (name : String) (url : PyVal) (fs : FS) (env : Env) : ItemTrace :=
  match (downloadBodyTrace name url fs env).ok with
  | Option.some _ => downloadBodyTrace name url fs env
  | Option.none =>
    { ok := Option.some false,
      fs := (downloadBodyTrace name url fs env).fs,
      gets := (downloadBodyTrace name url fs env).gets,
      log := (downloadBodyTrace name url fs env).log ++ [LogEvent.errorFailed name] }

/-- Outcome of the manifest request `requests.get(API_URL, timeout=30)`
followed by `response.json()` (src/main.py lines 69-71): the request can
raise; otherwise it yields a status code and, for the body, either the
parsed JSON object (a list of name/value pairs, as `dict.items()`
enumerates it) or `Option.none` when `.json()` raises a parse error. -/
inductive ManifestFetch where
  | raises (msg : String)
  | response (status : Nat) (json : Option (List (String × PyVal)))

/-- The filter of src/main.py line 74:
`[(name, url) for name, url in emoji_data.items() if url and is_valid_url(url)]`. -/
def validEmojis (data : List (String × PyVal)) : List (String × PyVal) :=
  data.filter (fun nu => pyTruthy nu.2 && is_valid_url nu.2)

/-- Accumulated trace of dispatching a list of work items. -/
structure BatchTrace where
  succeeded : Nat
  fs : FS
  gets : List String
  log : List LogEvent

/-- The dispatch-and-aggregate loop of src/main.py lines 77-91, as a
sequential linearisation: each item's `download_emoji` call is applied
to the filesystem left by the previous ones, `succeeded` counts the
`True` results.  (The thread-pool interleaving itself is modelled
separately by `PoolStep` below; the per-item effects are those of
`download_emoji`.) -/
def runItems : List (String × PyVal) → FS → Env → BatchTrace
  | [], fs, _ => { succeeded := 0, fs := fs, gets := [], log := [] }
  | (n, u) :: rest, fs, env =>
    { succeeded := (if (download_emoji n u fs env).ok = Option.some true then 1 else 0) +
        (runItems rest (download_emoji n u fs env).fs env).succeeded,
      fs := (runItems rest (download_emoji n u fs env).fs env).fs,
      gets := (download_emoji n u fs env).gets ++
        (runItems rest (download_emoji n u fs env).fs env).gets,
      log := (download_emoji n u fs env).log ++
        (runItems rest (download_emoji n u fs env).fs env).log }

/-- Result of one whole run of `main` (src/main.py lines 60-95).
`dispatched` is the list of work items submitted to the pool;
`reportedTotal` is the denominator of the final summary line 93
(`Option.none` when the run ended in the fatal `except` branch and no
summary was logged); `fatal` records whether the fatal handler of
line 94-95 ran. -/
structure BatchResult where
  dispatched : List (String × PyVal)
  succeeded : Nat
  reportedTotal : Option Nat
  fs : FS
  gets : List String
  fatal : Bool

/-- `main` (src/main.py lines 60-95): fetch the manifest (a raise from
`requests.get`, a 400-599 status via `raise_for_status`, or a JSON
parse failure all land in the `except` branch of line 94 and end the
run with no dispatch); otherwise filter with `is_valid_url`, dispatch
every valid item, and report `success_count / len(emoji_data)`
(line 93: the denominator is the size of the *whole* manifest). -/
def runBatch (mf : ManifestFetch) (fs0 : FS) (env : Env) : BatchResult :=
  match mf with
  | ManifestFetch.raises _ =>
    { dispatched := [], succeeded := 0, reportedTotal := Option.none,
      fs := fs0, gets := [], fatal := true }
  | ManifestFetch.response status json =>
    if 400 ≤ status ∧ status ≤ 599 then
      { dispatched := [], succeeded := 0, reportedTotal := Option.none,
        fs := fs0, gets := [], fatal := true }
    else
      match json with
      | Option.none =>
        { dispatched := [], succeeded := 0, reportedTotal := Option.none,
          fs := fs0, gets := [], fatal := true }
      | Option.some data =>
        { dispatched := validEmojis data,
          succeeded := (runItems (validEmojis data) fs0 env).succeeded,
          reportedTotal := Option.some data.length,
          fs := (runItems (validEmojis data) fs0 env).fs,
          gets := (runItems (validEmojis data) fs0 env).gets,
          fatal := false }

/-- A work item submitted to the pool: a name/URL pair. -/
def WorkItem : Type := String × PyVal

/-- The `max_workers` argument of the `ThreadPoolExecutor`
(src/main.py line 79). -/
def max_workers : Nat := 10

/-- A snapshot of the thread pool of src/main.py lines 79-91: items not
yet started, items currently in flight, and items whose futures
`as_completed` has already yielded. -/
structure PoolState where
  pending : List WorkItem
  running : List WorkItem
  done : List WorkItem

/-- The pool right after all submissions are queued. -/
def initPool (items : List WorkItem) : PoolState :=
  { pending := items, running := [], done := [] }

/-- Transitions of the `ThreadPoolExecutor(max_workers=10)` with the
`as_completed` collection loop: a queued item may start only while
fewer than `max_workers` items are in flight; a running item may finish
(in any order), its outcome then collected by the aggregator. -/
inductive PoolStep : PoolState → PoolState → Prop where
  | start (x : WorkItem) (pending running done : List WorkItem) :
      running.length < max_workers →
      PoolStep { pending := x :: pending, running := running, done := done }
        { pending := pending, running := x :: running, done := done }
  | finish (x : WorkItem) (pending r1 r2 done : List WorkItem) :
      PoolStep { pending := pending, running := r1 ++ x :: r2, done := done }
        { pending := pending, running := r1 ++ r2, done := x :: done }

/-- The pool states reachable during a run over `items`. -/
def PoolReachable (items : List WorkItem) (s : PoolState) : Prop :=
  Relation.ReflTransGen PoolStep (initPool items) s

/-- The empty filesystem. -/
def fsEmpty : FS := fun _ => Option.none

/-- A filesystem already holding `./output/a.png`. -/
def fsA : FS :=
  fun p => if p = "./output/a.png" then Option.some "old" else Option.none

/-- An environment where every GET returns 200 with body `"img"` and
every write succeeds. -/
def envOk : Env :=
  { get := fun _ => GetResult.response 200 "img", writeOk := fun _ => true }

/-- An environment where every GET returns 404. -/
def env404 : Env :=
  { get := fun _ => GetResult.response 404 "", writeOk := fun _ => true }

/-- The filtering example manifest of the spec: one valid URL, one
`null`, one malformed URL. -/
def manifest3 : List (String × PyVal) :=
  [("a", PyVal.str "https://x/a.png"), ("b", PyVal.none), ("c", PyVal.str "not-a-url")]

/-- A one-entry manifest with a valid URL. -/
def manifestA : List (String × PyVal) :=
  [("a", PyVal.str "https://x/a.png")]

/-- The spec's ASCII character class `[A-Za-z0-9_-]` (`Char.isAlphanum`
is the ASCII test), written from the spec's words for comparison with
the code's `keepChar`. -/
def specSafeChar (c : Char) : Bool :=
  c.isAlphanum || c = '-' || c = '_'

/-! ## Helper lemmas -/

theorem lastIdx_getElem : ∀ (l : List Char) (t : Char) (i : Nat),
    lastIdx l t = Option.some i → l[i]? = Option.some t := by
  intro l t
  induction l with
  | nil => intro i h; simp [lastIdx] at h
  | cons c cs ih =>
    intro i h
    unfold lastIdx at h
    cases hrec : lastIdx cs t with
    | some j =>
      rw [hrec] at h
      cases h
      simpa using ih j hrec
    | none =>
      rw [hrec] at h
      by_cases hc : c = t
      · rw [if_pos hc] at h
        cases h
        simp [hc]
      · rw [if_neg hc] at h
        cases h

theorem neg_one_le_pyRfind (s : String) (t : Char) : (-1 : Int) ≤ pyRfind s t := by
  unfold pyRfind
  cases lastIdx s.data t with
  | none => simp
  | some i =>
    have : (0 : Int) ≤ (i : Int) := Int.ofNat_nonneg i
    simp
    omega

theorem splitext_concat (p : String) :
    (pySplitext p).1 ++ (pySplitext p).2 = p := by
  unfold pySplitext
  split
  · split
    · show String.mk (p.data.take _ ++ p.data.drop _) = p
      rw [List.take_append_drop]
    · simp
  · simp

theorem splitext_snd_head (p : String) (h : ¬(pySplitext p).2 = "") :
    (pySplitext p).2.data.head? = Option.some '.' := by
  unfold pySplitext at h ⊢
  by_cases h1 : pyRfind p '.' > pyRfind p '/'
  · rw [if_pos h1] at h ⊢
    by_cases h2 : (List.range' (pyRfind p '/' + 1).toNat
        ((pyRfind p '.').toNat - (pyRfind p '/' + 1).toNat)).any
        (fun i => !(p.data.getD i '.' = '.')) = true
    · rw [if_pos h2]
      show (p.data.drop (pyRfind p '.').toNat).head? = Option.some '.'
      rw [List.head?_drop]
      cases hli : lastIdx p.data '.' with
      | none =>
        exfalso
        have hge := neg_one_le_pyRfind p '/'
        have hdot : pyRfind p '.' = -1 := by unfold pyRfind; rw [hli]
        rw [hdot] at h1
        omega
      | some i =>
        have htn : (pyRfind p '.').toNat = i := by
          unfold pyRfind
          rw [hli]
          simp
        rw [htn]
        exact lastIdx_getElem p.data '.' i hli
    · rw [if_neg h2] at h
      simp at h
  · rw [if_neg h1] at h
    simp at h

/-! ## C2 — Name Sanitizer -/

/-- C2 counterexample: the input `"é"` (U+00E9, alphanumeric for
Python's `str.isalnum`) passes through the sanitiser unchanged, so the
output is not restricted to the ASCII class `[A-Za-z0-9_-]` the claim
states. -/
theorem sanitiser_accepts_latin1 :
    sanitiseName "é" = "é" ∧
    (sanitiseName "é").data.all specSafeChar = false := by decide

/-- C2 (amended): the Name Sanitizer is a total function whose output
contains only characters accepted by the source's per-character filter
(Python's `isalnum` characters — Unicode alphanumerics, not only
ASCII — plus `-` and `_`), keeps the surviving characters in their
original order (when nonempty, the output is exactly the filtered input,
a sublist of it), and is the literal `"emoji"` when the filtered result
is empty. -/
theorem sanitiser_chars_and_fallback (name : String) :
    (sanitiseName name).data.all keepChar = true ∧
    (name.data.filter keepChar = [] → sanitiseName name = "emoji") ∧
    (¬ name.data.filter keepChar = [] →
      sanitiseName name = String.mk (name.data.filter keepChar) ∧
      (sanitiseName name).data.Sublist name.data) := by
  by_cases h : name.data.filter keepChar = []
  · have hmk : String.mk (name.data.filter keepChar) = "" := by rw [h]
    unfold sanitiseName
    rw [if_pos hmk]
    exact ⟨by decide, fun _ => rfl, fun hc => absurd h hc⟩
  · have hmk : ¬ String.mk (name.data.filter keepChar) = "" := by
      intro hh
      apply h
      simpa using congrArg String.data hh
    unfold sanitiseName
    rw [if_neg hmk]
    refine ⟨?_, fun hc => absurd hc h, fun _ => ⟨rfl, ?_⟩⟩
    · exact List.all_eq_true.mpr (fun x hx => (List.mem_filter.mp hx).2)
    · exact List.filter_sublist _

/-! ## C3 — extension derivation -/

/-- C3 counterexample: for the URL `https://x/a.png?v=1` the derived
extension is `.png?v=1` — the query string appears in the stored
filename's extension, so the extension is not derived from the URL's
path component alone. -/
theorem extension_includes_query :
    extensionOf "https://x/a.png?v=1" = ".png?v=1" ∧
    '?' ∈ (extensionOf "https://x/a.png?v=1").data := by decide

/-- C3 (amended): the stored extension is `os.path.splitext` applied to
the *whole URL string* — its suffix from the last `.` after the last
`/` — so query/fragment text can appear in it; it defaults to `".png"`
exactly when splitext yields an empty extension; a nonempty splitext
extension starts with `.` and completes the URL. -/
theorem extension_splitext_structure (u : String) :
    (pySplitext u).1 ++ (pySplitext u).2 = u ∧
    ((pySplitext u).2 = "" → extensionOf u = ".png") ∧
    (¬(pySplitext u).2 = "" →
      extensionOf u = (pySplitext u).2 ∧
      (pySplitext u).2.data.head? = Option.some '.') := by
  refine ⟨splitext_concat u, fun h => ?_, fun h => ⟨?_, splitext_snd_head u h⟩⟩
  · unfold extensionOf
    rw [if_pos h]
  · unfold extensionOf
    rw [if_neg h]

/-! ## C4 — URL Validator -/

/-- C4: the URL Validator is total over manifest values of any type and
returns true iff its argument is a string that starts with `http://` or
`https://`; in particular it accepts `https://x` and `http://x` and
rejects `ftp://x`, `null` and the integer `42`. -/
theorem validator_spec :
    (∀ v : PyVal, is_valid_url v = true ↔
      ∃ s, v = PyVal.str s ∧
        (pyStartsWith s "http://" = true ∨ pyStartsWith s "https://" = true)) ∧
    is_valid_url (PyVal.str "https://x") = true ∧
    is_valid_url (PyVal.str "http://x") = true ∧
    is_valid_url (PyVal.str "ftp://x") = false ∧
    is_valid_url PyVal.none = false ∧
    is_valid_url (PyVal.int 42) = false := by
  refine ⟨?_, by decide, by decide, by decide, by decide, by decide⟩
  intro v
  cases v with
  | str s =>
    simp only [is_valid_url, Bool.or_eq_true, PyVal.str.injEq]
    constructor
    · intro h
      exact ⟨s, rfl, h⟩
    · rintro ⟨t, rfl, h⟩
      exact h
  | int n => simp [is_valid_url]
  | none => simp [is_valid_url]
  | bool b => simp [is_valid_url]

/-! ## Item Fetcher lemmas -/

theorem download_skip (name u : String) (fs : FS) (env : Env)
    (h : (fs (itemFilepath name u)).isSome = true) :
    (download_emoji name (PyVal.str u) fs env).ok = Option.some true ∧
    (download_emoji name (PyVal.str u) fs env).fs = fs ∧
    (download_emoji name (PyVal.str u) fs env).gets = [] ∧
    LogEvent.infoSkipped name ∈ (download_emoji name (PyVal.str u) fs env).log := by
  unfold download_emoji downloadBodyTrace
  simp [h]

theorem download_fs_mono (name : String) (url : PyVal) (fs : FS) (env : Env) (p : String)
    (h : (fs p).isSome = true) :
    ((download_emoji name url fs env).fs p).isSome = true := by
  unfold download_emoji downloadBodyTrace
  cases url with
  | str u =>
    by_cases hex : (fs (itemFilepath name u)).isSome = true
    · simp [hex, h]
    · simp only [Bool.not_eq_true] at hex
      cases hget : env.get u with
      | raises msg => simp [hex, hget, h]
      | response st body =>
        by_cases hst : 400 ≤ st ∧ st ≤ 599
        · simp [hex, hget, hst, h]
        · by_cases hwr : env.writeOk (itemFilepath name u) = true
          · simp only [hex, hget, hwr]
            simp only [Bool.false_eq_true, if_false, if_neg hst, if_true]
            split <;> simp [h]
          · simp [hex, hget, hst, hwr, h]
  | int n => simp [h]
  | none => simp [h]
  | bool b => simp [h]

theorem download_ok_file (name : String) (url : PyVal) (fs : FS) (env : Env)
    (h : (download_emoji name url fs env).ok = Option.some true) :
    ∃ u, url = PyVal.str u ∧
      ((download_emoji name url fs env).fs (itemFilepath name u)).isSome = true := by
  cases url with
  | str u =>
    refine ⟨u, rfl, ?_⟩
    unfold download_emoji downloadBodyTrace at h ⊢
    by_cases hex : (fs (itemFilepath name u)).isSome = true
    · simp [hex]
    · simp only [Bool.not_eq_true] at hex
      cases hget : env.get u with
      | raises msg => simp [hex, hget] at h
      | response st body =>
        by_cases hst : 400 ≤ st ∧ st ≤ 599
        · simp [hex, hget, hst] at h
        · by_cases hwr : env.writeOk (itemFilepath name u) = true
          · simp [hex, hget, hst, hwr]
          · simp [hex, hget, hst, hwr] at h
  | int n =>
    unfold download_emoji downloadBodyTrace at h
    simp at h
  | none =>
    unfold download_emoji downloadBodyTrace at h
    simp at h
  | bool b =>
    unfold download_emoji downloadBodyTrace at h
    simp at h

/-! ## Batch lemmas -/

theorem runItems_fs_mono : ∀ (items : List (String × PyVal)) (fs : FS) (env : Env) (p : String),
    (fs p).isSome = true → ((runItems items fs env).fs p).isSome = true := by
  intro items
  induction items with
  | nil =>
    intro fs env p h
    simpa [runItems] using h
  | cons nu rest ih =>
    intro fs env p h
    obtain ⟨n, u⟩ := nu
    simp only [runItems]
    exact ih _ env p (download_fs_mono n u fs env p h)

theorem runItems_succeeded_le : ∀ (items : List (String × PyVal)) (fs : FS) (env : Env),
    (runItems items fs env).succeeded ≤ items.length := by
  intro items
  induction items with
  | nil =>
    intro fs env
    simp [runItems]
  | cons nu rest ih =>
    intro fs env
    obtain ⟨n, u⟩ := nu
    simp only [runItems, List.length_cons]
    have := ih (download_emoji n u fs env).fs env
    split <;> omega

theorem runItems_rerun : ∀ (items : List (String × PyVal)) (fs : FS) (env : Env),
    (runItems items fs env).succeeded = items.length →
    (runItems items (runItems items fs env).fs env).succeeded = items.length ∧
    (runItems items (runItems items fs env).fs env).fs = (runItems items fs env).fs ∧
    (runItems items (runItems items fs env).fs env).gets = [] := by
  intro items
  induction items with
  | nil =>
    intro fs env _
    simp [runItems]
  | cons nu rest ih =>
    intro fs env h
    obtain ⟨n, u⟩ := nu
    simp only [runItems, List.length_cons] at h ⊢
    have hle := runItems_succeeded_le rest (download_emoji n u fs env).fs env
    have hok : (download_emoji n u fs env).ok = Option.some true := by
      by_contra hb
      rw [if_neg hb] at h
      omega
    have hr : (runItems rest (download_emoji n u fs env).fs env).succeeded = rest.length := by
      rw [if_pos hok] at h
      omega
    obtain ⟨s, hs, hfile⟩ := download_ok_file n u fs env hok
    subst hs
    have hfileF :
        ((runItems rest (download_emoji n (PyVal.str s) fs env).fs env).fs
          (itemFilepath n s)).isSome = true :=
      runItems_fs_mono rest _ env _ hfile
    have hskip := download_skip n s
      (runItems rest (download_emoji n (PyVal.str s) fs env).fs env).fs env hfileF
    have ihrest := ih (download_emoji n (PyVal.str s) fs env).fs env hr
    rw [hskip.2.1]
    refine ⟨?_, ihrest.2.1, ?_⟩
    · rw [if_pos hskip.1, ihrest.1]
      omega
    · rw [hskip.2.2.1, ihrest.2.2]
      rfl

/-! ## C5 — skip-if-exists -/

/-- C5: for every work item whose derived filepath already exists when
the Item Fetcher checks, the outcome is Skipped and reported as success
(return `True`), no HTTP GET is performed, and the whole filesystem —
in particular the pre-existing file — is left unchanged. -/
theorem skip_existing_file (name u : String) (fs : FS) (env : Env)
    (h : (fs (itemFilepath name u)).isSome = true) :
    (download_emoji name (PyVal.str u) fs env).ok = Option.some true ∧
    (download_emoji name (PyVal.str u) fs env).fs = fs ∧
    (download_emoji name (PyVal.str u) fs env).gets = [] ∧
    LogEvent.infoSkipped name ∈ (download_emoji name (PyVal.str u) fs env).log :=
  download_skip name u fs env h

/-- C5 witness: with `./output/a.png` already on disk, the item
`("a", "https://x/a.png")` is skipped, succeeds, fetches nothing and
leaves the filesystem untouched. -/
theorem skip_existing_file_witness :
    (fsA (itemFilepath "a" "https://x/a.png")).isSome = true ∧
    ((download_emoji "a" (PyVal.str "https://x/a.png") fsA envOk).ok = Option.some true ∧
     (download_emoji "a" (PyVal.str "https://x/a.png") fsA envOk).fs = fsA ∧
     (download_emoji "a" (PyVal.str "https://x/a.png") fsA envOk).gets = [] ∧
     LogEvent.infoSkipped "a" ∈ (download_emoji "a" (PyVal.str "https://x/a.png") fsA envOk).log) :=
  ⟨by decide, skip_existing_file "a" "https://x/a.png" fsA envOk (by decide)⟩

/-! ## C6 — failure isolation -/

/-- C6: no exception raised inside the Item Fetcher propagates to the
caller: the call always returns a definite boolean; whenever the `try`
body raises (`ok = Option.none` in the body trace) the call returns
`False` and logs the error; a normal body return passes through
unchanged; and each of the spec's failure causes — a raising
`requests.get`, a 4xx/5xx status from `raise_for_status`, a filesystem
write error — yields a `False` return with the filesystem unchanged. -/
theorem downloader_failure_isolation (name : String) (url : PyVal) (fs : FS) (env : Env) :
    (∃ b, (download_emoji name url fs env).ok = Option.some b) ∧
    ((downloadBodyTrace name url fs env).ok = Option.none →
      (download_emoji name url fs env).ok = Option.some false ∧
      (download_emoji name url fs env).fs = (downloadBodyTrace name url fs env).fs ∧
      LogEvent.errorFailed name ∈ (download_emoji name url fs env).log) ∧
    (∀ b, (downloadBodyTrace name url fs env).ok = Option.some b →
      download_emoji name url fs env = downloadBodyTrace name url fs env) ∧
    (∀ u msg, url = PyVal.str u → fs (itemFilepath name u) = Option.none →
      env.get u = GetResult.raises msg →
      (download_emoji name url fs env).ok = Option.some false ∧
      (download_emoji name url fs env).fs = fs) ∧
    (∀ u st body, url = PyVal.str u → fs (itemFilepath name u) = Option.none →
      env.get u = GetResult.response st body → 400 ≤ st → st ≤ 599 →
      (download_emoji name url fs env).ok = Option.some false ∧
      (download_emoji name url fs env).fs = fs) ∧
    (∀ u st body, url = PyVal.str u → fs (itemFilepath name u) = Option.none →
      env.get u = GetResult.response st body → ¬(400 ≤ st ∧ st ≤ 599) →
      env.writeOk (itemFilepath name u) = false →
      (download_emoji name url fs env).ok = Option.some false ∧
      (download_emoji name url fs env).fs = fs) := by
  refine ⟨?_, ?_, ?_, ?_, ?_, ?_⟩
  · cases hb : (downloadBodyTrace name url fs env).ok with
    | some b => exact ⟨b, by simp [download_emoji, hb]⟩
    | none => exact ⟨false, by simp [download_emoji, hb]⟩
  · intro hb
    simp [download_emoji, hb]
  · intro b hb
    simp [download_emoji, hb]
  · rintro u msg rfl hfs hget
    have hex : (fs (itemFilepath name u)).isSome = false := by simp [hfs]
    unfold download_emoji downloadBodyTrace
    simp [hex, hget]
  · rintro u st body rfl hfs hget h4 h5
    have hex : (fs (itemFilepath name u)).isSome = false := by simp [hfs]
    unfold download_emoji downloadBodyTrace
    simp [hex, hget, h4, h5]
  · rintro u st body rfl hfs hget hst hwr
    have hex : (fs (itemFilepath name u)).isSome = false := by simp [hfs]
    unfold download_emoji downloadBodyTrace
    simp [hex, hget, hst, hwr]

/-! ## C10 — invalid URL still proceeds -/

/-- C10: for every URL rejected by the validator the Item Fetcher logs
the "not a valid URL" warning and does not return early: when the URL is
a string and the derived file is absent it still reaches the fetch
attempt (`requests.get` is called on that URL); and for every non-string
URL the extension derivation raises, the exception is caught, and the
call returns `False` with no file written and no fetch performed. -/
theorem invalid_url_proceeds (name : String) (url : PyVal) (fs : FS) (env : Env)
    (h : is_valid_url url = false) :
    LogEvent.warnInvalidUrl name ∈ (download_emoji name url fs env).log ∧
    (∀ u, url = PyVal.str u → fs (itemFilepath name u) = Option.none →
      (download_emoji name url fs env).gets = [u]) ∧
    ((∀ s, ¬ url = PyVal.str s) →
      (download_emoji name url fs env).ok = Option.some false ∧
      (download_emoji name url fs env).fs = fs ∧
      (download_emoji name url fs env).gets = [] ∧
      (download_emoji name url fs env).log =
        [LogEvent.warnInvalidUrl name, LogEvent.errorFailed name]) := by
  have hw : warnLog name url = [LogEvent.warnInvalidUrl name] := by
    simp [warnLog, h]
  refine ⟨?_, ?_, ?_⟩
  · unfold download_emoji downloadBodyTrace
    cases url with
    | str u =>
      by_cases hex : (fs (itemFilepath name u)).isSome = true
      · simp [hex, hw]
      · simp only [Bool.not_eq_true] at hex
        cases hget : env.get u with
        | raises msg => simp [hex, hget, hw]
        | response st body =>
          by_cases hst : 400 ≤ st ∧ st ≤ 599
          · simp [hex, hget, hst, hw]
          · by_cases hwr : env.writeOk (itemFilepath name u) = true
            · simp [hex, hget, hst, hwr, hw]
            · simp [hex, hget, hst, hwr, hw]
    | int n => simp [hw]
    | none => simp [hw]
    | bool b => simp [hw]
  · rintro u rfl hfs
    have hex : (fs (itemFilepath name u)).isSome = false := by simp [hfs]
    unfold download_emoji downloadBodyTrace
    cases hget : env.get u with
    | raises msg => simp [hex, hget]
    | response st body =>
      by_cases hst : 400 ≤ st ∧ st ≤ 599
      · simp [hex, hget, hst]
      · by_cases hwr : env.writeOk (itemFilepath name u) = true
        · simp [hex, hget, hst, hwr]
        · simp [hex, hget, hst, hwr]
  · intro hns
    cases url with
    | str s => exact absurd rfl (hns s)
    | int n =>
      unfold download_emoji downloadBodyTrace
      simp [hw]
    | none =>
      unfold download_emoji downloadBodyTrace
      simp [hw]
    | bool b =>
      unfold download_emoji downloadBodyTrace
      simp [hw]

/-- C10 witness: for the non-string URL `null` the call warns, fails
with `False`, writes nothing and fetches nothing; for the invalid string
URL `ftp://x` (file absent) the fetch attempt on `ftp://x` still
happens. -/
theorem invalid_url_proceeds_witness :
    is_valid_url PyVal.none = false ∧
    LogEvent.warnInvalidUrl "a" ∈ (download_emoji "a" PyVal.none fsEmpty envOk).log ∧
    (download_emoji "a" PyVal.none fsEmpty envOk).ok = Option.some false ∧
    (download_emoji "a" PyVal.none fsEmpty envOk).fs = fsEmpty ∧
    (download_emoji "a" PyVal.none fsEmpty envOk).gets = [] ∧
    (download_emoji "b" (PyVal.str "ftp://x") fsEmpty envOk).gets = ["ftp://x"] := by
  have h1 := invalid_url_proceeds "a" PyVal.none fsEmpty envOk (by decide)
  have h2 := h1.2.2 (by intro s hs; cases hs)
  have h3 := (invalid_url_proceeds "b" (PyVal.str "ftp://x") fsEmpty envOk (by decide)).2.1
    "ftp://x" rfl rfl
  exact ⟨by decide, h1.1, h2.1, h2.2.1, h2.2.2.1, h3⟩

/-! ## C1 — the summary total -/

/-- C1 counterexample: for the spec's filtering example manifest
(one valid URL, one `null`, one malformed URL) only one work item is
dispatched, but the summary line of src/main.py line 93 reports
`len(emoji_data)` — the total is 3, not the claimed 1. -/
theorem total_example_is_three :
    (runBatch (ManifestFetch.response 200 (Option.some manifest3)) fsEmpty envOk).dispatched.length = 1 ∧
    (runBatch (ManifestFetch.response 200 (Option.some manifest3)) fsEmpty envOk).succeeded = 1 ∧
    (runBatch (ManifestFetch.response 200 (Option.some manifest3)) fsEmpty envOk).reportedTotal =
      Option.some 3 ∧
    ¬ (runBatch (ManifestFetch.response 200 (Option.some manifest3)) fsEmpty envOk).reportedTotal =
      Option.some 1 := by decide

/-- C1 (amended): entries with missing/invalid URLs are excluded from
dispatch (every dispatched item passed the URL Validator), but the
`total` of the final `succeeded / total` summary is the size of the
whole manifest, invalid entries included — not the number of valid
work items. -/
theorem total_reports_manifest_size (data : List (String × PyVal)) (fs0 : FS) (env : Env) :
    (runBatch (ManifestFetch.response 200 (Option.some data)) fs0 env).reportedTotal =
      Option.some data.length ∧
    (runBatch (ManifestFetch.response 200 (Option.some data)) fs0 env).dispatched =
      validEmojis data ∧
    (validEmojis data).all (fun nu => is_valid_url nu.2) = true := by
  have h200 : ¬(400 ≤ 200 ∧ 200 ≤ 599) := by decide
  refine ⟨by simp [runBatch, h200], by simp [runBatch, h200], ?_⟩
  refine List.all_eq_true.mpr (fun nu hnu => ?_)
  have hmem : nu ∈ data ∧ pyTruthy nu.2 = true ∧ is_valid_url nu.2 = true := by
    simpa [validEmojis, List.mem_filter, Bool.and_eq_true] using hnu
  exact hmem.2.2

/-! ## C7 — the fatal manifest path -/

/-- C7 counterexample: a 304 manifest response is non-2xx, yet
`raise_for_status` does not raise for it; with a parseable body the run
dispatches its item, reports `total = 1`, succeeds and writes a file —
not the claimed zero outcomes with no files written. -/
theorem manifest_304_not_fatal :
    (runBatch (ManifestFetch.response 304 (Option.some manifestA)) fsEmpty envOk).fatal = false ∧
    (runBatch (ManifestFetch.response 304 (Option.some manifestA)) fsEmpty envOk).dispatched.length = 1 ∧
    (runBatch (ManifestFetch.response 304 (Option.some manifestA)) fsEmpty envOk).succeeded = 1 ∧
    (runBatch (ManifestFetch.response 304 (Option.some manifestA)) fsEmpty envOk).reportedTotal =
      Option.some 1 ∧
    (runBatch (ManifestFetch.response 304 (Option.some manifestA)) fsEmpty envOk).fs
      "./output/a.png" = Option.some "img" := by decide

/-- C7 (amended): if the manifest request raises, or returns a 4xx/5xx
status (what `raise_for_status` treats as an error — not every non-2xx
status), or its body fails to parse as JSON, the run ends with zero
outcomes: nothing dispatched, no fetches, no file written, no summary
total, and the fatal handler runs (the process exits cleanly). -/
theorem manifest_fatal_paths (fs0 : FS) (env : Env) :
    (∀ msg, runBatch (ManifestFetch.raises msg) fs0 env =
      { dispatched := [], succeeded := 0, reportedTotal := Option.none,
        fs := fs0, gets := [], fatal := true }) ∧
    (∀ st json, 400 ≤ st → st ≤ 599 →
      runBatch (ManifestFetch.response st json) fs0 env =
        { dispatched := [], succeeded := 0, reportedTotal := Option.none,
          fs := fs0, gets := [], fatal := true }) ∧
    (∀ st, runBatch (ManifestFetch.response st Option.none) fs0 env =
      { dispatched := [], succeeded := 0, reportedTotal := Option.none,
        fs := fs0, gets := [], fatal := true }) := by
  refine ⟨fun msg => rfl, ?_, ?_⟩
  · intro st json h4 h5
    simp only [runBatch]
    rw [if_pos ⟨h4, h5⟩]
  · intro st
    simp only [runBatch]
    by_cases hst : 400 ≤ st ∧ st ≤ 599
    · rw [if_pos hst]
    · rw [if_neg hst]

/-! ## C8 — rerun idempotence -/

/-- C8 counterexample: with a manifest of one valid item whose fetch
returns 404, the first run succeeds on nothing and writes nothing, so
the second run against the unchanged manifest and directory performs a
new image fetch — not the claimed zero fetches. -/
theorem rerun_after_failure_refetches :
    (runBatch (ManifestFetch.response 200 (Option.some manifestA)) fsEmpty env404).succeeded = 0 ∧
    (runBatch (ManifestFetch.response 200 (Option.some manifestA))
      (runBatch (ManifestFetch.response 200 (Option.some manifestA)) fsEmpty env404).fs
      env404).gets = ["https://x/a.png"] ∧
    ¬ (runBatch (ManifestFetch.response 200 (Option.some manifestA))
      (runBatch (ManifestFetch.response 200 (Option.some manifestA)) fsEmpty env404).fs
      env404).gets = [] := by decide

/-- C8 (amended): if the first run achieved `succeeded = total` (the
whole manifest size), then rerunning the batch with the manifest and
output directory unchanged performs zero image fetches — every item's
derived filepath is on disk, so every Item Fetcher call takes the
Skipped path — and `succeeded`, the filesystem and the reported total
are unchanged.  (Without full first-run success this fails: failed
items are fetched again, see the counterexample.) -/
theorem rerun_after_full_success_skips (data : List (String × PyVal)) (fs0 : FS) (env : Env)
    (h : (runBatch (ManifestFetch.response 200 (Option.some data)) fs0 env).succeeded =
      data.length) :
    (runBatch (ManifestFetch.response 200 (Option.some data))
        (runBatch (ManifestFetch.response 200 (Option.some data)) fs0 env).fs env).gets = [] ∧
    (runBatch (ManifestFetch.response 200 (Option.some data))
        (runBatch (ManifestFetch.response 200 (Option.some data)) fs0 env).fs env).succeeded =
      (runBatch (ManifestFetch.response 200 (Option.some data)) fs0 env).succeeded ∧
    (runBatch (ManifestFetch.response 200 (Option.some data))
        (runBatch (ManifestFetch.response 200 (Option.some data)) fs0 env).fs env).fs =
      (runBatch (ManifestFetch.response 200 (Option.some data)) fs0 env).fs ∧
    (runBatch (ManifestFetch.response 200 (Option.some data))
        (runBatch (ManifestFetch.response 200 (Option.some data)) fs0 env).fs env).reportedTotal =
      (runBatch (ManifestFetch.response 200 (Option.some data)) fs0 env).reportedTotal := by
  have h200 : ¬(400 ≤ 200 ∧ 200 ≤ 599) := by decide
  simp only [runBatch, if_neg h200] at h ⊢
  have hle1 := runItems_succeeded_le (validEmojis data) fs0 env
  have hle2 : (validEmojis data).length ≤ data.length := List.length_filter_le _ _
  have hfull : (runItems (validEmojis data) fs0 env).succeeded = (validEmojis data).length := by
    omega
  have hre := runItems_rerun (validEmojis data) fs0 env hfull
  refine ⟨hre.2.2, ?_, hre.2.1, trivial⟩
  rw [hre.1, hfull]

/-- C8 witness: a one-item manifest whose fetch succeeds: the first run
achieves `succeeded = total = 1`, and the second run fetches nothing
and reports the same summary. -/
theorem rerun_after_full_success_skips_witness :
    (runBatch (ManifestFetch.response 200 (Option.some manifestA)) fsEmpty envOk).succeeded =
      manifestA.length ∧
    ((runBatch (ManifestFetch.response 200 (Option.some manifestA))
        (runBatch (ManifestFetch.response 200 (Option.some manifestA)) fsEmpty envOk).fs
        envOk).gets = [] ∧
     (runBatch (ManifestFetch.response 200 (Option.some manifestA))
        (runBatch (ManifestFetch.response 200 (Option.some manifestA)) fsEmpty envOk).fs
        envOk).succeeded =
       (runBatch (ManifestFetch.response 200 (Option.some manifestA)) fsEmpty envOk).succeeded ∧
     (runBatch (ManifestFetch.response 200 (Option.some manifestA))
        (runBatch (ManifestFetch.response 200 (Option.some manifestA)) fsEmpty envOk).fs
        envOk).fs =
       (runBatch (ManifestFetch.response 200 (Option.some manifestA)) fsEmpty envOk).fs ∧
     (runBatch (ManifestFetch.response 200 (Option.some manifestA))
        (runBatch (ManifestFetch.response 200 (Option.some manifestA)) fsEmpty envOk).fs
        envOk).reportedTotal =
       (runBatch (ManifestFetch.response 200 (Option.some manifestA)) fsEmpty envOk).reportedTotal) :=
  ⟨by decide, rerun_after_full_success_skips manifestA fsEmpty envOk (by decide)⟩

/-! ## C9 — the concurrency bound -/

theorem poolReachable_invariant (items : List WorkItem) (s : PoolState)
    (h : PoolReachable items s) :
    s.running.length ≤ max_workers ∧
    s.pending.length + s.running.length + s.done.length = items.length := by
  unfold PoolReachable at h
  induction h with
  | refl => exact ⟨Nat.zero_le _, by simp [initPool]⟩
  | tail hsteps step ih =>
    cases step with
    | start x pending running done hlt =>
      simp only [List.length_cons] at ih ⊢
      omega
    | finish x pending r1 r2 done =>
      simp only [List.length_append, List.length_cons] at ih ⊢
      omega

/-- C9: under the pool transition relation of
`ThreadPoolExecutor(max_workers=10)` with the `as_completed` collection
loop, every reachable state has at most `max_workers = 10` items in
flight, and in any state where the summary can run (nothing pending,
nothing in flight) the aggregator has collected an outcome for every
submitted work item. -/
theorem pool_bound_and_completion (items : List WorkItem) (s : PoolState)
    (h : PoolReachable items s) :
    s.running.length ≤ max_workers ∧
    (s.pending = [] → s.running = [] → s.done.length = items.length) := by
  have hinv := poolReachable_invariant items s h
  refine ⟨hinv.1, fun hp hr => ?_⟩
  have hcount := hinv.2
  rw [hp, hr] at hcount
  simpa using hcount

/-- C9 witness: the initial pool state over the empty submission list is
reachable; it respects the bound and, being terminal, accounts for all
zero items. -/
theorem pool_bound_and_completion_witness :
    (initPool []).running.length ≤ max_workers ∧
    ((initPool []).pending = [] → (initPool []).running = [] →
      (initPool []).done.length = ([] : List WorkItem).length) :=
  pool_bound_and_completion [] (initPool []) Relation.ReflTransGen.refl
